import Mathlib

/-!
Shallow embedding of the cricket bowling RL environment
(`src/simulation/physics_engine.py`, `src/simulation/virtual_batsman.py`,
`src/simulation/cricket_env.py`).

Python floats are modelled as rationals (ℚ); the two sources of randomness
(the module-global `np.random.normal` draw for timing quality, and the
environment-owned seeded `np_random` draws) are passed as explicit arguments,
so every operation is a pure function of its state and its random samples.
-/

namespace Cricket

/-- An action vector `[speed_norm, line_norm, length_norm, spin_type, spin_magnitude_norm]`,
as handed to `CricketBowlEnv.step` / `CricketPhysicsEngine.simulate_delivery`. -/
structure Action where
  a0 : ℚ
  a1 : ℚ
  a2 : ℚ
  a3 : ℚ
  a4 : ℚ
  deriving DecidableEq

/-- The action box `[0,1]^5` declared by `CricketBowlEnv.action_space`. -/
def ValidAction (a : Action) : Prop :=
  0 ≤ a.a0 ∧ a.a0 ≤ 1 ∧ 0 ≤ a.a1 ∧ a.a1 ≤ 1 ∧ 0 ≤ a.a2 ∧ a.a2 ≤ 1 ∧
  0 ≤ a.a3 ∧ a.a3 ≤ 1 ∧ 0 ≤ a.a4 ∧ a.a4 ≤ 1

instance (a : Action) : Decidable (ValidAction a) := by
  unfold ValidAction; infer_instance

/-- The dict returned by `CricketPhysicsEngine.simulate_delivery`. -/
structure DeliveryParams where
  speed : ℚ
  initial_line : ℚ
  length : ℚ
  final_line : ℚ
  flight_time : ℚ
  bounce_deviation : ℚ
  spin_type : ℚ
  spin_magnitude : ℚ
  deriving DecidableEq

/-- Embeds `CricketPhysicsEngine._calculate_flight_time`: `length / speed`. -/
def calculate_flight_time (speed length : ℚ) : ℚ :=
  length / speed

/-- Embeds `CricketPhysicsEngine._calculate_spin_movement`:
`direction = -1 if spin_type < 0.5 else 1`, `movement = spin_magnitude * flight_time * 0.001`. -/
def calculate_spin_movement (spin_type spin_magnitude flight_time : ℚ) : ℚ :=
  let direction : ℚ := if spin_type < 1/2 then -1 else 1
  let movement := spin_magnitude * flight_time * (1/1000)
  direction * movement

/-- Embeds `CricketPhysicsEngine._calculate_bounce`: `spin_magnitude * 0.002`. -/
def calculate_bounce (spin_magnitude : ℚ) : ℚ :=
  spin_magnitude * (2/1000)

/-- Embeds `CricketPhysicsEngine.simulate_delivery`: denormalizes the action components
with fixed affine maps and assembles the delivery dict. -/
def simulate_delivery (a : Action) : DeliveryParams :=
  let speed := 20 + a.a0 * 40
  let line := -(1/2) + a.a1
  let length := 4 + a.a2 * 10
  let spin_type := a.a3
  let spin_magnitude := a.a4 * 50
  let flight_time := calculate_flight_time speed length
  let lateral_movement := calculate_spin_movement spin_type spin_magnitude flight_time
  let final_line := line + lateral_movement
  let bounce_deviation := calculate_bounce spin_magnitude
  { speed := speed
    initial_line := line
    length := length
    final_line := final_line
    flight_time := flight_time
    bounce_deviation := bounce_deviation
    spin_type := spin_type
    spin_magnitude := spin_magnitude }

/-- The shot labels produced by `VirtualBatsman._select_shot`. -/
inductive ShotType
  | drive | cover_drive | on_drive | cut | pull | defense | leave
  deriving DecidableEq

/-- The batsman weaknesses drawn in `CricketBowlEnv.reset`
(`["short_balls", "spin", "pace"]`). -/
inductive Weakness
  | short_balls | spin | pace
  deriving DecidableEq

/-- Mutable state of `VirtualBatsman`. -/
structure BatsmanState where
  skill : ℚ
  weakness : Weakness
  shot_history : List (ShotType × Bool)
  confidence : ℚ
  deriving DecidableEq

/-- Embeds `VirtualBatsman.__init__`: fresh batsman with empty history and confidence 0.5. -/
def mkBatsman (skill : ℚ) (weakness : Weakness) : BatsmanState :=
  { skill := skill, weakness := weakness, shot_history := [], confidence := 1/2 }

/-- Python `xs[-n:]`: the last `n` elements of a list (all of it if shorter). -/
def lastSlice (n : ℕ) (l : List (ShotType × Bool)) : List (ShotType × Bool) :=
  l.drop (l.length - n)

/-- Embeds `sum(1 for _, success in l if success)`. -/
def successCount (l : List (ShotType × Bool)) : ℕ :=
  (l.filter (fun p => p.2)).length

/-- Embeds `VirtualBatsman._update_confidence`: no-op on empty history, otherwise
`confidence = 0.3 + (successes in last 5 / 5) * 0.7`. -/
def update_confidence (b : BatsmanState) : BatsmanState :=
  if b.shot_history.length = 0 then b
  else
    let recent_success_rate : ℚ := (successCount (lastSlice 5 b.shot_history) : ℚ) / 5
    { b with confidence := 3/10 + recent_success_rate * (7/10) }

/-- Embeds `VirtualBatsman._select_shot`: decision table on (line, length). -/
def select_shot (line length : ℚ) : ShotType :=
  if length < 6 then
    if |line| < 3/10 then .defense else .leave
  else if length < 9 then
    if |line| < 1/5 then .drive
    else if line > 0 then .cover_drive else .on_drive
  else if length < 12 then
    if |line| < 3/10 then .defense
    else if line > 1/5 then .cut else .pull
  else
    if |line| < 2/5 then .pull else .leave

/-- The `base_probabilities` table in `VirtualBatsman._calculate_success_probability`. -/
def base_probabilities : ShotType → ℚ
  | .drive => 7/10
  | .cover_drive => 6/10
  | .on_drive => 6/10
  | .cut => 8/10
  | .pull => 5/10
  | .defense => 9/10
  | .leave => 1

/-- Embeds `VirtualBatsman._calculate_success_probability`: base probability adjusted by
weakness, speed, and confidence. -/
def calculate_success_probability (b : BatsmanState) (shot : ShotType)
    (d : DeliveryParams) : ℚ :=
  let base_prob := base_probabilities shot
  let base_prob :=
    if b.weakness = .short_balls ∧ d.length > 10 then base_prob * (7/10)
    else if b.weakness = .spin ∧ d.spin_magnitude > 25 then base_prob * (8/10)
    else base_prob
  let base_prob := if d.speed > 45 then base_prob * (9/10) else base_prob
  base_prob * b.confidence

/-- Embeds `np.clip(x, lo, hi)`. -/
def clip (x lo hi : ℚ) : ℚ :=
  min (max x lo) hi

/-- Result tuple of `VirtualBatsman.play_shot`, together with the mutated batsman. -/
structure ShotResult where
  shot : ShotType
  timing : ℚ
  succ : Bool
  batsman : BatsmanState
  deriving DecidableEq

/-- Embeds `VirtualBatsman.play_shot`. `timing_raw` stands for the draw
`np.random.normal(self.skill, 0.2)` from the module-global generator;
the function clips it to `[0.1, 1.0]`, decides success by
`timing_quality * success_prob > 0.5`, appends to the history (FIFO capacity 10)
and recomputes confidence. -/
def play_shot (b : BatsmanState) (d : DeliveryParams) (timing_raw : ℚ) : ShotResult :=
  let shot := select_shot d.final_line d.length
  let success_prob := calculate_success_probability b shot d
  let timing_quality := clip timing_raw (1/10) 1
  let is_successful : Bool := decide (timing_quality * success_prob > 1/2)
  let hist := b.shot_history ++ [(shot, is_successful)]
  let hist := if hist.length > 10 then hist.tail else hist
  let b1 := update_confidence { b with shot_history := hist }
  { shot := shot, timing := timing_quality, succ := is_successful, batsman := b1 }

/-- Embeds `VirtualBatsman.get_state`: 5-feature vector
[skill, confidence, recent success over last 3 (0.5 if no history), one-hot weakness]. -/
def get_state (b : BatsmanState) : List ℚ :=
  let recent_success : ℚ :=
    if b.shot_history = [] then 1/2
    else (successCount (lastSlice 3 b.shot_history) : ℚ) / 3
  [b.skill, b.confidence, recent_success,
   if b.weakness = .short_balls then 1 else 0,
   if b.weakness = .spin then 1 else 0]

/-- Match state owned by `CricketBowlEnv`. -/
structure EnvState where
  balls_bowled : ℕ
  runs_conceded : ℕ
  wickets_taken : ℕ
  current_over_balls : ℕ
  runs_last_over : ℕ
  batsman : BatsmanState
  deriving DecidableEq

/-- Embeds `CricketBowlEnv.reset`: zeroes the match counters and rebuilds the batsman.
`skill` and `weakness` stand for the draws `np_random.uniform(0.5, 0.9)` and
`np_random.choice([...])` from the seeded, environment-owned generator. -/
def reset (skill : ℚ) (weakness : Weakness) : EnvState :=
  { balls_bowled := 0, runs_conceded := 0, wickets_taken := 0,
    current_over_balls := 0, runs_last_over := 0,
    batsman := mkBatsman skill weakness }

/-- The `base_runs` table in `CricketBowlEnv._calculate_runs_scored`. -/
def base_runs : ShotType → ℕ
  | .drive => 4
  | .cover_drive => 4
  | .on_drive => 3
  | .cut => 4
  | .pull => 6
  | .defense => 0
  | .leave => 0

/-- Embeds `CricketBowlEnv._calculate_runs_scored`: base runs plus a +1 bonus when
`timing_quality > 0.8` and runs > 0. -/
def calculate_runs_scored (shot : ShotType) (timing_quality : ℚ) : ℕ :=
  let runs := base_runs shot
  if timing_quality > 8/10 ∧ runs > 0 then runs + 1 else runs

/-- Embeds `CricketBowlEnv._calculate_reward`: evaluated on the match state *before*
this step's counter updates (the Python method is called before
`balls_bowled += 1`). -/
def calculate_reward (s : EnvState) (d : DeliveryParams) (shot : ShotType)
    (is_successful : Bool) (timing_quality : ℚ) : ℚ :=
  let reward : ℚ := 0
  let reward :=
    if is_successful then
      reward - (calculate_runs_scored shot timing_quality : ℚ) * 2
    else
      reward + 10 + (if timing_quality < 3/10 then 5 else 0)
  let reward := if 15/2 < d.length ∧ d.length < 19/2 then reward + 2 else reward
  let reward :=
    if s.balls_bowled > 0 then
      let economy_rate := (s.runs_conceded : ℚ) / ((s.balls_bowled : ℚ) / 6)
      if economy_rate < 6 then reward + 1
      else if economy_rate > 9 then reward - 1
      else reward
    else reward
  reward

/-- The `info` dict returned by `CricketBowlEnv.step`. -/
structure StepInfo where
  ball_params : DeliveryParams
  shot_type : ShotType
  successful : Bool
  runs_conceded : ℕ
  wickets : ℕ
  deriving DecidableEq

/-- The 5-tuple returned by `CricketBowlEnv.step`, plus the post-step state. -/
structure StepResult where
  obs : List ℚ
  reward : ℚ
  terminated : Bool
  truncated : Bool
  info : StepInfo
  state : EnvState
  deriving DecidableEq

/-- Embeds `CricketBowlEnv._get_observation`: batsman 5-vector concatenated with
`[60 - balls_bowled, runs_last_over, current_over_balls]`. -/
def get_observation (s : EnvState) : List ℚ :=
  get_state s.batsman ++
    [(60 : ℚ) - (s.balls_bowled : ℚ), (s.runs_last_over : ℚ), (s.current_over_balls : ℚ)]

/-- Embeds `CricketBowlEnv.step`. `timing_raw` is the module-global normal draw consumed
inside `play_shot`; `wicket_draw` is the seeded `np_random.random()` sample used
for the wicket chance (only consulted when the shot fails with
`timing_quality < 0.3`). -/
def step (s : EnvState) (a : Action) (timing_raw wicket_draw : ℚ) : StepResult :=
  let ball_params := simulate_delivery a
  let r := play_shot s.batsman ball_params timing_raw
  let reward := calculate_reward s ball_params r.shot r.succ r.timing
  let balls_bowled := s.balls_bowled + 1
  let current_over_balls := s.current_over_balls + 1
  let runs_scored := if r.succ then calculate_runs_scored r.shot r.timing else 0
  let runs_conceded := s.runs_conceded + runs_scored
  let runs_last_over :=
    if r.succ ∧ current_over_balls ≤ 6 then s.runs_last_over + runs_scored
    else s.runs_last_over
  let wicket : Bool := decide (r.succ = false ∧ r.timing < 3/10 ∧ wicket_draw < 3/10)
  let wickets_taken := if wicket then s.wickets_taken + 1 else s.wickets_taken
  let reward := if wicket then reward + 20 else reward
  let current_over_balls := if current_over_balls ≥ 6 then 0 else current_over_balls
  let runs_last_over := if s.current_over_balls + 1 ≥ 6 then 0 else runs_last_over
  let terminated : Bool := decide (balls_bowled ≥ 60 ∨ wickets_taken ≥ 3)
  let s1 : EnvState :=
    { balls_bowled := balls_bowled, runs_conceded := runs_conceded,
      wickets_taken := wickets_taken, current_over_balls := current_over_balls,
      runs_last_over := runs_last_over, batsman := r.batsman }
  { obs := get_observation s1
    reward := reward
    terminated := terminated
    truncated := false
    info := { ball_params := ball_params, shot_type := r.shot, successful := r.succ,
              runs_conceded := runs_conceded, wickets := wickets_taken }
    state := s1 }

/-- The termination condition `balls_bowled >= 60 or wickets_taken >= 3`. -/
def isTerminal (s : EnvState) : Prop :=
  60 ≤ s.balls_bowled ∨ 3 ≤ s.wickets_taken

instance (s : EnvState) : Decidable (isTerminal s) := by
  unfold isTerminal; infer_instance

/-- States reachable in exactly `n` steps of one episode: the reset state, and
any successor by `step` of a reachable, non-terminated state (so this covers
every observation returned by `reset` or by a `step` up to and including the
terminating one). -/
inductive ReachableN (skill : ℚ) (w : Weakness) : ℕ → EnvState → Prop
  | init : ReachableN skill w 0 (reset skill w)
  | next (n : ℕ) (s : EnvState) (a : Action) (t u : ℚ) :
      ReachableN skill w n s → ¬ isTerminal s →
      ReachableN skill w (n + 1) (step s a t u).state

end Cricket

namespace Cricket

/-! ### Shared helper definitions and lemmas -/

/-- The mid-range test action `[0.5, 0.5, 0.5, 0.0, 0.5]`. -/
def midAction : Action := ⟨1/2, 1/2, 1/2, 0, 1/2⟩

/-- Componentwise clamping of an action into the box `[0,1]^5` (what a
"clamp" input policy would do; the code never calls anything like this). -/
def clampAction (a : Action) : Action :=
  ⟨clip a.a0 0 1, clip a.a1 0 1, clip a.a2 0 1, clip a.a3 0 1, clip a.a4 0 1⟩

/-- A good-length delivery wide of off stump on which `_select_shot` resolves
to `pull` (length 10, final line -0.4). -/
def pullDelivery : DeliveryParams :=
  { speed := 40, initial_line := -(2/5), length := 10, final_line := -(2/5),
    flight_time := 1/4, bounce_deviation := 1/20, spin_type := 0, spin_magnitude := 25 }

/-- A fresh batsman used to instantiate hypotheses of universally quantified
theorems at a concrete input. -/
def freshBatsman : BatsmanState :=
  { skill := 7/10, weakness := Weakness.pace, shot_history := [], confidence := 1/2 }

/-- The per-episode state invariant maintained by `step` from `reset`. -/
def Inv (skill : ℚ) (s : EnvState) : Prop :=
  s.batsman.skill = skill ∧
  s.balls_bowled ≤ 60 ∧
  s.current_over_balls ≤ 5 ∧
  s.runs_last_over ≤ 7 * s.current_over_balls ∧
  3/10 ≤ s.batsman.confidence ∧ s.batsman.confidence ≤ 1

theorem successCount_le_length (l : List (ShotType × Bool)) :
    successCount l ≤ l.length :=
  List.length_filter_le _ _

theorem lastSlice_length_le (n : ℕ) (l : List (ShotType × Bool)) :
    (lastSlice n l).length ≤ n := by
  simp only [lastSlice, List.length_drop]
  omega

end Cricket

namespace Cricket

/-- Claim C3: for every action in `[0,1]^5`, `simulate_delivery` returns
`20 ≤ speed ≤ 60`, `-0.5 ≤ initial_line ≤ 0.5`, `4 ≤ length ≤ 14`,
`0 ≤ spin_magnitude ≤ 50`, and `flight_time = length / speed > 0`; in
particular `speed > 0`, so the division never divides by zero. -/
theorem C3_simulate_delivery_ranges (a : Action) (h : ValidAction a) :
    20 ≤ (simulate_delivery a).speed ∧ (simulate_delivery a).speed ≤ 60 ∧
    -(1/2) ≤ (simulate_delivery a).initial_line ∧ (simulate_delivery a).initial_line ≤ 1/2 ∧
    4 ≤ (simulate_delivery a).length ∧ (simulate_delivery a).length ≤ 14 ∧
    0 ≤ (simulate_delivery a).spin_magnitude ∧ (simulate_delivery a).spin_magnitude ≤ 50 ∧
    (simulate_delivery a).flight_time =
      (simulate_delivery a).length / (simulate_delivery a).speed ∧
    0 < (simulate_delivery a).flight_time ∧
    0 < (simulate_delivery a).speed := by
  obtain ⟨h0, h0', h1, h1', h2, h2', h3, h3', h4, h4'⟩ := h
  simp only [simulate_delivery, calculate_flight_time, calculate_spin_movement,
    calculate_bounce]
  refine ⟨by linarith, by linarith, by linarith, by linarith, by linarith, by linarith,
    by linarith, by linarith, by trivial, ?_, by linarith⟩
  exact div_pos (by linarith) (by linarith)

/-- Witness for C3 at the concrete action `[0,0,0,0,0]`. -/
theorem C3_witness :
    ValidAction ⟨0, 0, 0, 0, 0⟩ ∧
    (20 ≤ (simulate_delivery ⟨0, 0, 0, 0, 0⟩).speed ∧
     (simulate_delivery ⟨0, 0, 0, 0, 0⟩).speed ≤ 60 ∧
     -(1/2) ≤ (simulate_delivery ⟨0, 0, 0, 0, 0⟩).initial_line ∧
     (simulate_delivery ⟨0, 0, 0, 0, 0⟩).initial_line ≤ 1/2 ∧
     4 ≤ (simulate_delivery ⟨0, 0, 0, 0, 0⟩).length ∧
     (simulate_delivery ⟨0, 0, 0, 0, 0⟩).length ≤ 14 ∧
     0 ≤ (simulate_delivery ⟨0, 0, 0, 0, 0⟩).spin_magnitude ∧
     (simulate_delivery ⟨0, 0, 0, 0, 0⟩).spin_magnitude ≤ 50 ∧
     (simulate_delivery ⟨0, 0, 0, 0, 0⟩).flight_time =
       (simulate_delivery ⟨0, 0, 0, 0, 0⟩).length / (simulate_delivery ⟨0, 0, 0, 0, 0⟩).speed ∧
     0 < (simulate_delivery ⟨0, 0, 0, 0, 0⟩).flight_time ∧
     0 < (simulate_delivery ⟨0, 0, 0, 0, 0⟩).speed) :=
  ⟨by norm_num [ValidAction],
   C3_simulate_delivery_ranges ⟨0, 0, 0, 0, 0⟩ (by norm_num [ValidAction])⟩

/-- Counterexample to claim C5: at action `[0.5, 0.5, 0.5, 0.25, 0.5]` the
`spin_type` field of the returned delivery is `0.25`, not an element of
`{0, 1}`: the field is the raw continuous input, not its discretization. -/
theorem C5_counterexample :
    (simulate_delivery ⟨1/2, 1/2, 1/2, 1/4, 1/2⟩).spin_type = 1/4 ∧
    ¬ ((simulate_delivery ⟨1/2, 1/2, 1/2, 1/4, 1/2⟩).spin_type = 0 ∨
       (simulate_delivery ⟨1/2, 1/2, 1/2, 1/4, 1/2⟩).spin_type = 1) := by
  norm_num [simulate_delivery]

/-- Claim C5 (amended): `simulate_delivery` stores the raw continuous input
`a3` in the `spin_type` field; only the direction of the lateral spin movement
discretizes `a3` at threshold `0.5` (`-1` if `a3 < 0.5`, else `+1`). -/
theorem C5_spin_type_passthrough (a : Action) :
    (simulate_delivery a).spin_type = a.a3 ∧
    (simulate_delivery a).final_line =
      (simulate_delivery a).initial_line +
        (if a.a3 < 1/2 then (-1 : ℚ) else 1) *
          ((simulate_delivery a).spin_magnitude * (simulate_delivery a).flight_time *
            (1/1000)) := by
  constructor
  · rfl
  · simp only [simulate_delivery, calculate_spin_movement, calculate_flight_time,
      calculate_bounce]

/-- Counterexample to claim C7: the action `[2, 0.5, 0.5, 0, 0.5]` lies outside
`[0,1]^5`, yet `simulate_delivery` neither fails (it is a total computation with
no validation branch) nor clamps: it returns `speed = 100`, while clamping the
action first would give `speed = 60`. The invalid action is processed raw. -/
theorem C7_counterexample :
    ¬ ValidAction ⟨2, 1/2, 1/2, 0, 1/2⟩ ∧
    (simulate_delivery ⟨2, 1/2, 1/2, 0, 1/2⟩).speed = 100 ∧
    (simulate_delivery (clampAction ⟨2, 1/2, 1/2, 0, 1/2⟩)).speed = 60 ∧
    (100 : ℚ) ≠ 60 := by
  refine ⟨?_, by norm_num [simulate_delivery], ?_, by norm_num⟩
  · intro h
    obtain ⟨-, h0', -⟩ := h
    norm_num at h0'
  · norm_num [simulate_delivery, clampAction, clip]

/-- Claim C7 (amended): the environment applies no input policy at all: for
every action (inside the box or not), `step` hands the raw action to
`simulate_delivery`, which applies the affine maps to the raw components with
no validation and no clamping. -/
theorem C7_no_validation (s : EnvState) (a : Action) (t u : ℚ) :
    (step s a t u).info.ball_params = simulate_delivery a ∧
    (simulate_delivery a).speed = 20 + a.a0 * 40 ∧
    (simulate_delivery a).initial_line = -(1/2) + a.a1 ∧
    (simulate_delivery a).length = 4 + a.a2 * 10 ∧
    (simulate_delivery a).spin_type = a.a3 ∧
    (simulate_delivery a).spin_magnitude = a.a4 * 50 :=
  ⟨rfl, rfl, rfl, rfl, rfl, rfl⟩

/-- Claim C8: the action `[0.5, 0.5, 0.5, 0.0, 0.5]` yields `length = 9` (the
good-length band `9 ≤ length < 12`) and `|final_line| < 0.3`, so for every
batsman state and timing draw, `play_shot` selects `defense`, and a successful
defense scores 0 runs. -/
theorem C8_good_length_defense_scenario :
    (simulate_delivery midAction).length = 9 ∧
    (9 ≤ (simulate_delivery midAction).length ∧ (simulate_delivery midAction).length < 12) ∧
    |(simulate_delivery midAction).final_line| < 3/10 ∧
    (∀ (b : BatsmanState) (t : ℚ),
      (play_shot b (simulate_delivery midAction) t).shot = ShotType.defense) ∧
    (∀ t : ℚ, calculate_runs_scored ShotType.defense t = 0) := by
  have hfl : (simulate_delivery midAction).final_line = -9/1600 := by
    norm_num [simulate_delivery, midAction, calculate_flight_time, calculate_spin_movement]
  have hlen : (simulate_delivery midAction).length = 9 := by
    norm_num [simulate_delivery, midAction]
  refine ⟨hlen, by rw [hlen]; norm_num, by rw [hfl]; rw [abs_lt]; norm_num, ?_, ?_⟩
  · intro b t
    simp only [play_shot, hfl, hlen, select_shot]
    norm_num [abs_lt]
  · intro t
    simp [calculate_runs_scored, base_runs]

end Cricket

namespace Cricket

theorem update_confidence_hist (b : BatsmanState) :
    (update_confidence b).shot_history = b.shot_history := by
  rw [update_confidence]; split <;> rfl

theorem update_confidence_conf (b : BatsmanState) (h : b.shot_history ≠ []) :
    (update_confidence b).confidence =
      3/10 + (successCount (lastSlice 5 b.shot_history) : ℚ) / 5 * (7/10) := by
  rw [update_confidence, if_neg (by simpa using h)]

theorem appended_hist_ne_nil (l : List (ShotType × Bool)) (x : ShotType × Bool) :
    (if (l ++ [x]).length > 10 then (l ++ [x]).tail else l ++ [x]) ≠ [] := by
  split
  · next h =>
    intro habs
    have hl := congrArg List.length habs
    rw [List.length_tail, List.length_append] at hl
    rw [List.length_append] at h
    simp only [List.length_singleton, List.length_nil] at hl h
    omega
  · simp

theorem play_shot_confidence_eq (b : BatsmanState) (d : DeliveryParams) (t : ℚ) :
    (play_shot b d t).batsman.confidence =
      3/10 + (successCount (lastSlice 5 (play_shot b d t).batsman.shot_history) : ℚ)
        / 5 * (7/10) := by
  simp only [play_shot, update_confidence_hist]
  rw [update_confidence_conf]
  exact appended_hist_ne_nil _ _

theorem confidence_formula_bounds (l : List (ShotType × Bool)) :
    3/10 ≤ 3/10 + (successCount (lastSlice 5 l) : ℚ) / 5 * (7/10) ∧
    3/10 + (successCount (lastSlice 5 l) : ℚ) / 5 * (7/10) ≤ 1 := by
  have h1 : (0:ℚ) ≤ (successCount (lastSlice 5 l) : ℚ) := Nat.cast_nonneg _
  have h2 : (successCount (lastSlice 5 l) : ℚ) ≤ 5 := by
    exact_mod_cast (successCount_le_length _).trans (lastSlice_length_le 5 l)
  constructor <;> nlinarith

/-- Claim C6: after every shot, the batsman's confidence equals
`0.3 + 0.7 * (successes among the last 5 history entries / 5)` (divisor 5 even
with fewer than 5 shots), hence confidence always lies in `[0.3, 1.0]`. -/
theorem C6_confidence_update (b : BatsmanState) (d : DeliveryParams) (t : ℚ) :
    (play_shot b d t).batsman.confidence =
      3/10 + 7/10 *
        ((successCount (lastSlice 5 (play_shot b d t).batsman.shot_history) : ℚ) / 5) ∧
    3/10 ≤ (play_shot b d t).batsman.confidence ∧
    (play_shot b d t).batsman.confidence ≤ 1 := by
  have h := play_shot_confidence_eq b d t
  exact ⟨by rw [h]; ring, by rw [h]; exact (confidence_formula_bounds _).1,
    by rw [h]; exact (confidence_formula_bounds _).2⟩

theorem play_shot_confidence_bounds (b : BatsmanState) (d : DeliveryParams) (t : ℚ) :
    3/10 ≤ (play_shot b d t).batsman.confidence ∧
    (play_shot b d t).batsman.confidence ≤ 1 := by
  rw [play_shot_confidence_eq]; exact confidence_formula_bounds _

theorem base_probabilities_nonneg (shot : ShotType) : 0 ≤ base_probabilities shot := by
  cases shot <;> norm_num [base_probabilities]

theorem success_prob_nonneg (b : BatsmanState) (shot : ShotType) (d : DeliveryParams)
    (hc : 0 ≤ b.confidence) :
    0 ≤ calculate_success_probability b shot d := by
  simp only [calculate_success_probability]
  have := base_probabilities_nonneg shot
  split_ifs <;> nlinarith

theorem success_prob_pull_le (b : BatsmanState) (d : DeliveryParams)
    (hc0 : 0 ≤ b.confidence) (hc1 : b.confidence ≤ 1) :
    calculate_success_probability b ShotType.pull d ≤ 1/2 := by
  simp only [calculate_success_probability, base_probabilities]
  split_ifs <;> nlinarith

/-- Claim C10: with confidence in `[0,1]`, whenever the computed success
probability is at most 0.5, `play_shot` returns `is_successful = false`
(timing quality is clamped to at most 1 and success needs
`timing * prob > 0.5` strictly); in particular a `pull` (base probability 0.5)
is never successful, so a successful shot never scores the 6-run pull value. -/
theorem C10_low_success_prob_never_succeeds (b : BatsmanState) (d : DeliveryParams)
    (t : ℚ) (hc0 : 0 ≤ b.confidence) (hc1 : b.confidence ≤ 1) :
    (calculate_success_probability b (select_shot d.final_line d.length) d ≤ 1/2 →
      (play_shot b d t).succ = false) ∧
    (select_shot d.final_line d.length = ShotType.pull →
      (play_shot b d t).succ = false) := by
  have hkey : calculate_success_probability b (select_shot d.final_line d.length) d ≤ 1/2 →
      (play_shot b d t).succ = false := by
    intro hp
    have hnn := success_prob_nonneg b (select_shot d.final_line d.length) d hc0
    simp only [play_shot, decide_eq_false_iff_not, not_lt]
    have ht1 : clip t (1/10) 1 ≤ 1 := min_le_right _ _
    have ht0 : (0:ℚ) ≤ clip t (1/10) 1 :=
      le_min (le_trans (by norm_num) (le_max_right t (1/10))) (by norm_num)
    calc clip t (1/10) 1 * calculate_success_probability b (select_shot d.final_line d.length) d
        ≤ 1 * calculate_success_probability b (select_shot d.final_line d.length) d :=
          mul_le_mul_of_nonneg_right ht1 hnn
      _ ≤ 1/2 := by linarith
  refine ⟨hkey, fun hpull => hkey ?_⟩
  rw [hpull]
  exact success_prob_pull_le b d hc0 hc1

end Cricket

namespace Cricket

/-- Witness for C10: the concrete batsman has confidence `0.5 ∈ [0,1]`, the
concrete delivery selects `pull`, and the shot indeed fails. -/
theorem C10_witness :
    0 ≤ freshBatsman.confidence ∧ freshBatsman.confidence ≤ 1 ∧
    (play_shot freshBatsman pullDelivery (9/10)).succ = false := by
  refine ⟨by norm_num [freshBatsman], by norm_num [freshBatsman], ?_⟩
  exact (C10_low_success_prob_never_succeeds freshBatsman pullDelivery (9/10)
      (by norm_num [freshBatsman]) (by norm_num [freshBatsman])).2
    (by norm_num [pullDelivery, select_shot, abs_lt])

/-- Claim C4: the reward of a step decomposes as
`(miss bonus | runs penalty) + length bonus + economy shaping + wicket bonus`,
with the +20 wicket bonus a separate additive term applied only on the
unsuccessful branch when the wicket draw succeeds, and the economy term read
off the match state before the step's counter updates. -/
theorem C4_reward_decomposition (s : EnvState) (a : Action) (t u : ℚ) :
    (step s a t u).reward =
      (if (play_shot s.batsman (simulate_delivery a) t).succ then
        -((calculate_runs_scored (play_shot s.batsman (simulate_delivery a) t).shot
            (play_shot s.batsman (simulate_delivery a) t).timing : ℚ) * 2)
       else 10 + (if (play_shot s.batsman (simulate_delivery a) t).timing < 3/10
                  then 5 else 0))
      + (if 15/2 < (simulate_delivery a).length ∧ (simulate_delivery a).length < 19/2
         then 2 else 0)
      + (if 0 < s.balls_bowled then
          (if (s.runs_conceded : ℚ) / ((s.balls_bowled : ℚ) / 6) < 6 then 1
           else if (s.runs_conceded : ℚ) / ((s.balls_bowled : ℚ) / 6) > 9 then -1 else 0)
         else 0)
      + (if (play_shot s.batsman (simulate_delivery a) t).succ = false ∧
            (play_shot s.batsman (simulate_delivery a) t).timing < 3/10 ∧ u < 3/10
         then 20 else 0) := by
  simp only [step, calculate_reward, decide_eq_true_eq]
  split_ifs <;> simp_all <;> ring

end Cricket

namespace Cricket

/-- Claim C1 (refuted by the code): `reset(seed)` seeds only the
environment-owned `np_random` generator (modelled by the `skill`, `weakness`
and `wicket_draw` inputs), while `VirtualBatsman.play_shot` draws
`timing_quality` from the module-global `np.random` generator, which the seed
does not control. Two runs with the same seed (hence the same batsman and the
same wicket draw) and the same action can therefore return different rewards:
with global draws 0.9 and 0.1 the first step's reward is 12 in one run and 17
in the other, so the seeded trajectory is not two-run deterministic. -/
theorem C1_global_rng_breaks_determinism :
    (step (reset (7/10) Weakness.short_balls) midAction (9/10) (1/2)).reward = 12 ∧
    (step (reset (7/10) Weakness.short_balls) midAction (1/10) (1/2)).reward = 17 ∧
    (12 : ℚ) ≠ 17 := by
  refine ⟨?_, ?_, by norm_num⟩ <;>
    norm_num [step, reset, mkBatsman, midAction, simulate_delivery, calculate_flight_time,
      calculate_spin_movement, calculate_bounce, play_shot, select_shot,
      calculate_success_probability, base_probabilities, clip, calculate_reward,
      calculate_runs_scored, base_runs, update_confidence, successCount, lastSlice, abs_lt]

end Cricket

namespace Cricket

theorem runs_scored_le_seven (shot : ShotType) (t : ℚ) :
    calculate_runs_scored shot t ≤ 7 := by
  cases shot <;> simp only [calculate_runs_scored, base_runs] <;> split_ifs <;> omega

theorem update_confidence_skill (b : BatsmanState) :
    (update_confidence b).skill = b.skill := by
  rw [update_confidence]; split <;> rfl

theorem play_shot_skill (b : BatsmanState) (d : DeliveryParams) (t : ℚ) :
    (play_shot b d t).batsman.skill = b.skill := by
  simp only [play_shot, update_confidence_skill]

/-- Explicit description of the post-step match state. -/
theorem step_state_eq (s : EnvState) (a : Action) (t u : ℚ) :
    (step s a t u).state =
      { balls_bowled := s.balls_bowled + 1,
        runs_conceded := s.runs_conceded +
          (if (play_shot s.batsman (simulate_delivery a) t).succ then
             calculate_runs_scored (play_shot s.batsman (simulate_delivery a) t).shot
               (play_shot s.batsman (simulate_delivery a) t).timing
           else 0),
        wickets_taken :=
          if (play_shot s.batsman (simulate_delivery a) t).succ = false ∧
             (play_shot s.batsman (simulate_delivery a) t).timing < 3/10 ∧ u < 3/10
          then s.wickets_taken + 1 else s.wickets_taken,
        current_over_balls :=
          if s.current_over_balls + 1 ≥ 6 then 0 else s.current_over_balls + 1,
        runs_last_over :=
          if s.current_over_balls + 1 ≥ 6 then 0
          else if (play_shot s.batsman (simulate_delivery a) t).succ ∧
                  s.current_over_balls + 1 ≤ 6 then
            s.runs_last_over +
              (if (play_shot s.batsman (simulate_delivery a) t).succ then
                 calculate_runs_scored (play_shot s.batsman (simulate_delivery a) t).shot
                   (play_shot s.batsman (simulate_delivery a) t).timing
               else 0)
          else s.runs_last_over,
        batsman := (play_shot s.batsman (simulate_delivery a) t).batsman } := by
  simp only [step, decide_eq_true_eq]

theorem inv_reset (skill : ℚ) (w : Weakness) : Inv skill (reset skill w) := by
  refine ⟨rfl, ?_, ?_, ?_, ?_, ?_⟩ <;> norm_num [reset, mkBatsman]

theorem inv_step (skill : ℚ) (s : EnvState) (a : Action) (t u : ℚ)
    (h : Inv skill s) (hterm : ¬ isTerminal s) :
    Inv skill (step s a t u).state := by
  obtain ⟨hsk, hballs, hcob, hrlo, hcf1, hcf2⟩ := h
  have hballs' : s.balls_bowled < 60 := by
    by_contra hb
    exact hterm (Or.inl (by omega))
  have hrun : (if (play_shot s.batsman (simulate_delivery a) t).succ then
      calculate_runs_scored (play_shot s.batsman (simulate_delivery a) t).shot
        (play_shot s.batsman (simulate_delivery a) t).timing else 0) ≤ 7 := by
    split
    · exact runs_scored_le_seven _ _
    · omega
  have hrun2 : calculate_runs_scored (play_shot s.batsman (simulate_delivery a) t).shot
      (play_shot s.batsman (simulate_delivery a) t).timing ≤ 7 :=
    runs_scored_le_seven _ _
  rw [step_state_eq]
  refine ⟨?_, ?_, ?_, ?_, ?_, ?_⟩
  · simpa [play_shot_skill] using hsk
  · simp only []
    omega
  · simp only []
    split_ifs <;> omega
  · simp only []
    split_ifs with h1 h2 <;> omega
  · simpa using (play_shot_confidence_bounds s.batsman (simulate_delivery a) t).1
  · simpa using (play_shot_confidence_bounds s.batsman (simulate_delivery a) t).2

theorem reachable_inv (skill : ℚ) (w : Weakness) (n : ℕ) (s : EnvState)
    (h : ReachableN skill w n s) : Inv skill s := by
  induction h with
  | init => exact inv_reset skill w
  | next n s a t u hr hterm ih => exact inv_step skill s a t u ih hterm

theorem reachable_balls (skill : ℚ) (w : Weakness) (n : ℕ) (s : EnvState)
    (h : ReachableN skill w n s) : s.balls_bowled = n := by
  induction h with
  | init => rfl
  | next n s a t u hr hterm ih => rw [step_state_eq]; simpa using ih

end Cricket

namespace Cricket

theorem step_terminated_iff (s : EnvState) (a : Action) (t u : ℚ) :
    ((step s a t u).terminated = true ↔ isTerminal (step s a t u).state) := by
  simp only [step, isTerminal, decide_eq_true_eq, ge_iff_le]

/-- Claim C2: along any episode, `step` reports `terminated` exactly when the
post-update state has `balls_bowled ≥ 60` or `wickets_taken ≥ 3`;
`balls_bowled` rises by exactly 1 and `wickets_taken` by at most 1 per step;
the reset state (0 steps) is never terminal; by the 60th step the state is
terminal; and `truncated` is always false. -/
theorem C2_termination_invariant (skill : ℚ) (w : Weakness) (n : ℕ) (s : EnvState)
    (h : ReachableN skill w n s) :
    s.balls_bowled = n ∧ n ≤ 60 ∧
    (n = 0 → ¬ isTerminal s) ∧
    (n = 60 → isTerminal s) ∧
    (∀ (a : Action) (t u : ℚ), ¬ isTerminal s →
      ((step s a t u).terminated = true ↔ isTerminal (step s a t u).state) ∧
      (step s a t u).truncated = false ∧
      (step s a t u).state.balls_bowled = s.balls_bowled + 1 ∧
      s.wickets_taken ≤ (step s a t u).state.wickets_taken ∧
      (step s a t u).state.wickets_taken ≤ s.wickets_taken + 1) := by
  have hballs := reachable_balls skill w n s h
  have hlast : ∀ (a : Action) (t u : ℚ), ¬ isTerminal s →
      ((step s a t u).terminated = true ↔ isTerminal (step s a t u).state) ∧
      (step s a t u).truncated = false ∧
      (step s a t u).state.balls_bowled = s.balls_bowled + 1 ∧
      s.wickets_taken ≤ (step s a t u).state.wickets_taken ∧
      (step s a t u).state.wickets_taken ≤ s.wickets_taken + 1 := by
    intro a t u _
    refine ⟨step_terminated_iff s a t u, rfl, ?_, ?_, ?_⟩
    · rw [step_state_eq]
    · rw [step_state_eq]
      simp only []
      split_ifs <;> omega
    · rw [step_state_eq]
      simp only []
      split_ifs <;> omega
  have hn60 : n ≤ 60 := by
    induction h with
    | init => omega
    | next m s' a t u hr hterm ih =>
      have hb' := reachable_balls skill w m s' hr
      have : s'.balls_bowled < 60 := by
        by_contra hb
        exact hterm (Or.inl (by omega))
      omega
  refine ⟨hballs, hn60, ?_, ?_, hlast⟩
  · intro hn0
    cases h with
    | init =>
      intro habs
      simp [isTerminal, reset, mkBatsman] at habs
    | next m s' a t u hr hterm =>
      intro _
      omega
  · intro hn60'
    exact Or.inl (by omega)

/-- Witness for C2 at the reset state (0 steps). -/
theorem C2_witness :
    (reset (7/10) Weakness.pace).balls_bowled = 0 ∧ (0 : ℕ) ≤ 60 ∧
    ((0 : ℕ) = 0 → ¬ isTerminal (reset (7/10) Weakness.pace)) ∧
    ((0 : ℕ) = 60 → isTerminal (reset (7/10) Weakness.pace)) ∧
    (∀ (a : Action) (t u : ℚ), ¬ isTerminal (reset (7/10) Weakness.pace) →
      ((step (reset (7/10) Weakness.pace) a t u).terminated = true ↔
        isTerminal (step (reset (7/10) Weakness.pace) a t u).state) ∧
      (step (reset (7/10) Weakness.pace) a t u).truncated = false ∧
      (step (reset (7/10) Weakness.pace) a t u).state.balls_bowled =
        (reset (7/10) Weakness.pace).balls_bowled + 1 ∧
      (reset (7/10) Weakness.pace).wickets_taken ≤
        (step (reset (7/10) Weakness.pace) a t u).state.wickets_taken ∧
      (step (reset (7/10) Weakness.pace) a t u).state.wickets_taken ≤
        (reset (7/10) Weakness.pace).wickets_taken + 1) :=
  C2_termination_invariant (7/10) Weakness.pace 0 (reset (7/10) Weakness.pace)
    ReachableN.init

end Cricket

namespace Cricket

theorem get_observation_eq (s : EnvState) :
    get_observation s =
      [s.batsman.skill, s.batsman.confidence,
       (if s.batsman.shot_history = [] then (1:ℚ)/2
        else (successCount (lastSlice 3 s.batsman.shot_history) : ℚ) / 3),
       (if s.batsman.weakness = Weakness.short_balls then (1:ℚ) else 0),
       (if s.batsman.weakness = Weakness.spin then (1:ℚ) else 0),
       (60 : ℚ) - (s.balls_bowled : ℚ), (s.runs_last_over : ℚ),
       (s.current_over_balls : ℚ)] := by
  simp only [get_observation, get_state, List.cons_append, List.nil_append]

/-- Claim C9: every observation returned along an episode (from `reset` or any
`step` up to and including the terminating one) satisfies the declared bounds:
dims 1-5 in `[0,1]`, dim 6 in `[0,60]`, dim 7 in `[0,36]`, dim 8 in `[0,6]`. -/
theorem C9_observation_bounds (skill : ℚ) (w : Weakness) (n : ℕ) (s : EnvState)
    (hsk1 : 1/2 ≤ skill) (hsk2 : skill ≤ 9/10)
    (h : ReachableN skill w n s) :
    (get_observation s).length = 8 ∧
    (0 ≤ (get_observation s).getD 0 0 ∧ (get_observation s).getD 0 0 ≤ 1) ∧
    (0 ≤ (get_observation s).getD 1 0 ∧ (get_observation s).getD 1 0 ≤ 1) ∧
    (0 ≤ (get_observation s).getD 2 0 ∧ (get_observation s).getD 2 0 ≤ 1) ∧
    (0 ≤ (get_observation s).getD 3 0 ∧ (get_observation s).getD 3 0 ≤ 1) ∧
    (0 ≤ (get_observation s).getD 4 0 ∧ (get_observation s).getD 4 0 ≤ 1) ∧
    (0 ≤ (get_observation s).getD 5 0 ∧ (get_observation s).getD 5 0 ≤ 60) ∧
    (0 ≤ (get_observation s).getD 6 0 ∧ (get_observation s).getD 6 0 ≤ 36) ∧
    (0 ≤ (get_observation s).getD 7 0 ∧ (get_observation s).getD 7 0 ≤ 6) := by
  obtain ⟨hsk, hballs, hcob, hrlo, hcf1, hcf2⟩ := reachable_inv skill w n s h
  have hballsq : (s.balls_bowled : ℚ) ≤ 60 := by exact_mod_cast hballs
  have hcobq : (s.current_over_balls : ℚ) ≤ 5 := by exact_mod_cast hcob
  have hrloq : (s.runs_last_over : ℚ) ≤ 35 := by
    have : s.runs_last_over ≤ 35 := by omega
    exact_mod_cast this
  rw [get_observation_eq]
  refine ⟨rfl, ⟨?_, ?_⟩, ⟨?_, ?_⟩, ⟨?_, ?_⟩, ⟨?_, ?_⟩, ⟨?_, ?_⟩, ⟨?_, ?_⟩,
    ⟨?_, ?_⟩, ⟨?_, ?_⟩⟩
  · show (0:ℚ) ≤ s.batsman.skill
    rw [hsk]; linarith
  · show s.batsman.skill ≤ 1
    rw [hsk]; linarith
  · show (0:ℚ) ≤ s.batsman.confidence
    linarith
  · show s.batsman.confidence ≤ 1
    exact hcf2
  · show (0:ℚ) ≤ if s.batsman.shot_history = [] then (1:ℚ)/2
      else (successCount (lastSlice 3 s.batsman.shot_history) : ℚ) / 3
    split
    · norm_num
    · positivity
  · show (if s.batsman.shot_history = [] then (1:ℚ)/2
      else (successCount (lastSlice 3 s.batsman.shot_history) : ℚ) / 3) ≤ 1
    split
    · norm_num
    · have hle : successCount (lastSlice 3 s.batsman.shot_history) ≤ 3 :=
        (successCount_le_length _).trans (lastSlice_length_le 3 _)
      have : (successCount (lastSlice 3 s.batsman.shot_history) : ℚ) ≤ 3 := by
        exact_mod_cast hle
      linarith
  · show (0:ℚ) ≤ if s.batsman.weakness = Weakness.short_balls then (1:ℚ) else 0
    split <;> norm_num
  · show (if s.batsman.weakness = Weakness.short_balls then (1:ℚ) else 0) ≤ 1
    split <;> norm_num
  · show (0:ℚ) ≤ if s.batsman.weakness = Weakness.spin then (1:ℚ) else 0
    split <;> norm_num
  · show (if s.batsman.weakness = Weakness.spin then (1:ℚ) else 0) ≤ 1
    split <;> norm_num
  · show (0:ℚ) ≤ 60 - (s.balls_bowled : ℚ)
    linarith
  · show (60:ℚ) - (s.balls_bowled : ℚ) ≤ 60
    have : (0:ℚ) ≤ (s.balls_bowled : ℚ) := Nat.cast_nonneg _
    linarith
  · show (0:ℚ) ≤ (s.runs_last_over : ℚ)
    exact Nat.cast_nonneg _
  · show (s.runs_last_over : ℚ) ≤ 36
    linarith
  · show (0:ℚ) ≤ (s.current_over_balls : ℚ)
    exact Nat.cast_nonneg _
  · show (s.current_over_balls : ℚ) ≤ 6
    linarith

/-- Witness for C9 at the reset state with skill 0.7, weakness `spin`. -/
theorem C9_witness :
    (1:ℚ)/2 ≤ 7/10 ∧ (7:ℚ)/10 ≤ 9/10 ∧
    ((get_observation (reset (7/10) Weakness.spin)).length = 8 ∧
     (0 ≤ (get_observation (reset (7/10) Weakness.spin)).getD 0 0 ∧
      (get_observation (reset (7/10) Weakness.spin)).getD 0 0 ≤ 1) ∧
     (0 ≤ (get_observation (reset (7/10) Weakness.spin)).getD 1 0 ∧
      (get_observation (reset (7/10) Weakness.spin)).getD 1 0 ≤ 1) ∧
     (0 ≤ (get_observation (reset (7/10) Weakness.spin)).getD 2 0 ∧
      (get_observation (reset (7/10) Weakness.spin)).getD 2 0 ≤ 1) ∧
     (0 ≤ (get_observation (reset (7/10) Weakness.spin)).getD 3 0 ∧
      (get_observation (reset (7/10) Weakness.spin)).getD 3 0 ≤ 1) ∧
     (0 ≤ (get_observation (reset (7/10) Weakness.spin)).getD 4 0 ∧
      (get_observation (reset (7/10) Weakness.spin)).getD 4 0 ≤ 1) ∧
     (0 ≤ (get_observation (reset (7/10) Weakness.spin)).getD 5 0 ∧
      (get_observation (reset (7/10) Weakness.spin)).getD 5 0 ≤ 60) ∧
     (0 ≤ (get_observation (reset (7/10) Weakness.spin)).getD 6 0 ∧
      (get_observation (reset (7/10) Weakness.spin)).getD 6 0 ≤ 36) ∧
     (0 ≤ (get_observation (reset (7/10) Weakness.spin)).getD 7 0 ∧
      (get_observation (reset (7/10) Weakness.spin)).getD 7 0 ≤ 6)) :=
  ⟨by norm_num, by norm_num,
   C9_observation_bounds (7/10) Weakness.spin 0 (reset (7/10) Weakness.spin)
     (by norm_num) (by norm_num) ReachableN.init⟩

end Cricket
